import Mathlib

/-!
Verification of the sensor/alert/shelter/routing core of the mcp_rag_gis_system
repository, as a shallow embedding in Lean.

Conventions used throughout:
* SQL tables are lists of rows; an SQL UPDATE is a `List.map` of a row transformer
  whose guard is the WHERE clause; an SQL INSERT is an append.
* Numeric values carried as Python floats / SQL numerics are embedded as `ℚ`.
* Timestamps (`NOW()`, `datetime.now()`) are abstract `Nat` instants supplied as
  explicit arguments.
* PostGIS geodesic distance (`ST_Distance` on geography, meters) is abstracted as a
  distance-oracle parameter, since both the radius filter and the reported distance
  of a query consume the same measure.
-/

namespace McpRagGis

/-- Shelter row: the `refugios` table (`RefugioEmergencia` in
`database/models_TimescaleDB.py`), restricted to the columns read or written by the
services under verification. -/
structure Refugio where
  id : Nat
  nombre : String
  tipo_refugio : String
  estado_operativo : String
  capacidad_maxima : Int
  capacidad_actual : Int
  tiene_aire_acondicionado : Bool
  tiene_calefaccion : Bool
  tiene_servicio_medico : Bool
  lon : ℚ
  lat : ℚ
  deriving Repr, DecidableEq

/-- One-row effect of the UPDATE issued by
`TimescaleService.actualizar_capacidad_refugio` (`services/timescale_service.py`):
`SET capacidad_actual = $2 WHERE id = $1 AND $2 <= capacidad_maxima`. A row outside
the WHERE clause is returned unchanged. -/
def actualizarCapacidadRow (refugio_id : Nat) (nueva_capacidad : Int) (r : Refugio) :
    Refugio :=
  if r.id = refugio_id ∧ nueva_capacidad ≤ r.capacidad_maxima then
    { r with capacidad_actual := nueva_capacidad }
  else r

/-- `TimescaleService.actualizar_capacidad_refugio`: executes the guarded UPDATE via
`execute_command` and returns `True`. The command tag (the count of rows the UPDATE
matched) returned by `execute_command` is discarded, so the boolean result does not
depend on whether any row was updated. -/
def actualizar_capacidad_refugio (refugios : List Refugio) (refugio_id : Nat)
    (nueva_capacidad : Int) : List Refugio × Bool :=
  (refugios.map (actualizarCapacidadRow refugio_id nueva_capacidad), true)

/-- The capacity invariant of a shelter row. -/
def capacidadInvariant (r : Refugio) : Prop :=
  0 ≤ r.capacidad_actual ∧ r.capacidad_actual ≤ r.capacidad_maxima

instance (r : Refugio) : Decidable (capacidadInvariant r) := by
  unfold capacidadInvariant; infer_instance

/-- C2: for every shelter, `0 ≤ capacidad_actual ≤ capacidad_maxima` is preserved by
`actualizar_capacidad_refugio` for any requested value `nueva_capacidad ≥ 0`: the
guard `$2 <= capacidad_maxima` of the UPDATE blocks any assignment above the
maximum of the row, and rows outside the WHERE clause keep their previous (invariant) values. -/
theorem actualizar_capacidad_preserves_invariant (refugios : List Refugio)
    (refugio_id : Nat) (nueva_capacidad : Int) (hn : 0 ≤ nueva_capacidad)
    (hinv : ∀ r ∈ refugios, capacidadInvariant r) :
    ∀ r ∈ (actualizar_capacidad_refugio refugios refugio_id nueva_capacidad).1,
      capacidadInvariant r := by
  intro r hr
  simp only [actualizar_capacidad_refugio, List.mem_map] at hr
  obtain ⟨r0, hr0, rfl⟩ := hr
  have h0 := hinv r0 hr0
  unfold actualizarCapacidadRow
  split
  · rename_i h
    exact ⟨hn, h.2⟩
  · exact h0

/-- Shelter fixture for the capacity claims: current occupancy 40 of maximum 100. -/
def refugioC3 : Refugio :=
  { id := 3, nombre := "Refugio Centro", tipo_refugio := "permanente",
    estado_operativo := "disponible", capacidad_maxima := 100,
    capacidad_actual := 40, tiene_aire_acondicionado := true,
    tiene_calefaccion := false, tiene_servicio_medico := true,
    lon := -4, lat := 40 }

/-- Concrete instantiation of `actualizar_capacidad_preserves_invariant`: the
fixture shelter at 40/100 updated to 90 keeps the invariant. -/
theorem actualizar_capacidad_preserves_invariant_witness :
    capacidadInvariant (actualizarCapacidadRow 3 90 refugioC3) :=
  actualizar_capacidad_preserves_invariant [refugioC3] 3 90 (by decide) (by decide)
    (actualizarCapacidadRow 3 90 refugioC3) (by decide)

/-- C3 counterexample: requesting capacity 150 on a shelter with maximum 100 leaves
the row unchanged, yet the operation still returns `true` — the caller is told the
update succeeded, so the rejection is NOT reported. -/
theorem actualizar_capacidad_silent_reject_counterexample :
    actualizar_capacidad_refugio [refugioC3] 3 150 = ([refugioC3], true) := by
  decide

/-- C3 amended: when the requested value exceeds the maximum of the target shelter,
the guard `$2 <= capacidad_maxima` of the UPDATE leaves the stored capacity unchanged, but the
operation reports success (`true`) all the same: the rejection is silent. -/
theorem actualizar_capacidad_rejects_silently (refugios : List Refugio)
    (refugio_id : Nat) (nueva_capacidad : Int)
    (h : ∀ r ∈ refugios, r.id = refugio_id → r.capacidad_maxima < nueva_capacidad) :
    actualizar_capacidad_refugio refugios refugio_id nueva_capacidad
      = (refugios, true) := by
  unfold actualizar_capacidad_refugio
  refine Prod.ext ?_ rfl
  simp only
  calc refugios.map (actualizarCapacidadRow refugio_id nueva_capacidad)
      = refugios.map id := by
        apply List.map_congr_left
        intro r hr
        unfold actualizarCapacidadRow
        split
        · rename_i hcond
          exact absurd hcond.2 (not_le.mpr (h r hr hcond.1))
        · rfl
    _ = refugios := List.map_id refugios

/-- Concrete instantiation of `actualizar_capacidad_rejects_silently` at the fixture
shelter and requested capacity 150. -/
theorem actualizar_capacidad_rejects_silently_witness :
    actualizar_capacidad_refugio [refugioC3] 3 150 = ([refugioC3], true) :=
  actualizar_capacidad_rejects_silently [refugioC3] 3 150 (by decide)

/-- Alert row of the `alertas_temperatura` table (`AlertaTemperatura` in
`database/models_TimescaleDB.py`), restricted to the columns `resolver_alerta`
reads or writes. The UUID primary key is carried as a string. -/
structure AlertaTemperaturaRow where
  id : String
  sensor_id : Nat
  estado : String
  fecha_deteccion : Nat
  fecha_resolucion : Option Nat
  personal_notificado : Option String
  deriving Repr, DecidableEq

/-- One-row effect of the UPDATE issued by `TimescaleService.resolver_alerta`:
it sets `estado` to `resuelta`, `fecha_resolucion` to `NOW()` and appends to
`personal_notificado` via `CONCAT`, guarded by `WHERE id = $1 AND estado = activa`
(the state literals are SQL strings). SQL `CONCAT` treats a NULL argument as the
empty string, which `Option.getD` reproduces. -/
def resolverAlertaRow (alerta_id usuario : String) (now : Nat)
    (a : AlertaTemperaturaRow) : AlertaTemperaturaRow :=
  if a.id = alerta_id ∧ a.estado = "activa" then
    { a with
        estado := "resuelta",
        fecha_resolucion := some now,
        personal_notificado := some ((a.personal_notificado.getD "")
          ++ "; Resuelto por: " ++ usuario ++ " el " ++ toString now) }
  else a

/-- `TimescaleService.resolver_alerta`: runs the conditional UPDATE and returns
`True`; the command tag of `execute_command` is discarded, so the result does not
depend on whether any row matched. -/
def resolver_alerta (alertas : List AlertaTemperaturaRow) (alerta_id usuario : String)
    (now : Nat) : List AlertaTemperaturaRow × Bool :=
  (alertas.map (resolverAlertaRow alerta_id usuario now), true)

/-- C4: `resolver_alerta` transitions exactly the rows that match the given id AND
are in state `activa`, setting state `resuelta` and persisting the resolution
timestamp; every other row is untouched; and when every row carrying the given id is
already `resuelta`, the whole table is returned unchanged with no error (`true`). -/
theorem resolver_alerta_spec (alertas : List AlertaTemperaturaRow)
    (alerta_id usuario : String) (now : Nat) :
    (∀ a : AlertaTemperaturaRow, ¬(a.id = alerta_id ∧ a.estado = "activa") →
        resolverAlertaRow alerta_id usuario now a = a)
    ∧ (∀ a : AlertaTemperaturaRow, a.id = alerta_id → a.estado = "activa" →
        (resolverAlertaRow alerta_id usuario now a).estado = "resuelta"
          ∧ (resolverAlertaRow alerta_id usuario now a).fecha_resolucion = some now)
    ∧ ((∀ a ∈ alertas, a.id = alerta_id → a.estado = "resuelta") →
        resolver_alerta alertas alerta_id usuario now = (alertas, true)) := by
  refine ⟨?_, ?_, ?_⟩
  · intro a ha
    unfold resolverAlertaRow
    split
    · rename_i h; exact absurd h ha
    · rfl
  · intro a h1 h2
    unfold resolverAlertaRow
    split
    · exact ⟨rfl, rfl⟩
    · rename_i h; exact absurd ⟨h1, h2⟩ h
  · intro hres
    unfold resolver_alerta
    refine Prod.ext ?_ rfl
    simp only
    calc alertas.map (resolverAlertaRow alerta_id usuario now)
        = alertas.map id := by
          apply List.map_congr_left
          intro a ha
          unfold resolverAlertaRow
          split
          · rename_i h
            have := hres a ha h.1
            rw [this] at h
            exact absurd h.2 (by decide)
          · rfl
      _ = alertas := List.map_id alertas

/-- Alert fixture: an alert that has already been resolved. -/
def alertaResuelta : AlertaTemperaturaRow :=
  { id := "a1b2", sensor_id := 42, estado := "resuelta",
    fecha_deteccion := 10, fecha_resolucion := some 20,
    personal_notificado := some "; Resuelto por: sistema el 20" }

/-- Concrete instantiation of `resolver_alerta_spec`: re-resolving an
already-resolved alert mutates nothing and reports no error. -/
theorem resolver_alerta_spec_witness :
    resolver_alerta [alertaResuelta] "a1b2" "operador" 30 = ([alertaResuelta], true) :=
  (resolver_alerta_spec [alertaResuelta] "a1b2" "operador" 30).2.2 (by decide)

/-! ### Threshold evaluation (`SensorService._check_alerts`) -/

/-- Per-reading-type threshold configuration
(`settings.sensors.default_thresholds` entries in `config/settings.py`); each of the
three keys may be absent, as the Python dict membership tests allow. -/
structure Thresholds where
  critical : Option ℚ
  max : Option ℚ
  min : Option ℚ
  deriving Repr, DecidableEq

/-- First guard of `_check_alerts`: the key `critical` is present in the thresholds
dict and `value >= thresholds[critical]`. -/
def critFires (t : Thresholds) (value : ℚ) : Bool :=
  match t.critical with
  | some c => decide (c ≤ value)
  | none => false

/-- Second guard: the key `max` is present and `value > thresholds[max]`. -/
def maxFires (t : Thresholds) (value : ℚ) : Bool :=
  match t.max with
  | some m => decide (m < value)
  | none => false

/-- Third guard: the key `min` is present and `value < thresholds[min]`. -/
def minFires (t : Thresholds) (value : ℚ) : Bool :=
  match t.min with
  | some m => decide (value < m)
  | none => false

/-- The if/elif chain of `SensorService._check_alerts`
(`services/sensor_service.py`): returns the `(alert_level, message)` pair handed to
`_trigger_alert`, or `none` when no guard fires. `name` is `sensor_info.name`. -/
def check_alerts_result (t : Thresholds) (name : String) (value : ℚ) :
    Option (String × String) :=
  if critFires t value then
    some ("CRITICAL", "Valor crítico en " ++ name ++ ": " ++ toString value
      ++ " (umbral: " ++ toString (t.critical.getD 0) ++ ")")
  else if maxFires t value then
    some ("WARNING", "Valor alto en " ++ name ++ ": " ++ toString value
      ++ " (máximo: " ++ toString (t.max.getD 0) ++ ")")
  else if minFires t value then
    some ("WARNING", "Valor bajo en " ++ name ++ ": " ++ toString value
      ++ " (mínimo: " ++ toString (t.min.getD 0) ++ ")")
  else none

/-- `settings.sensors.default_thresholds` (`config/settings.py`): the per-kind
threshold table; `dict.get(reading_type, {})` yields the empty dict — here `none` —
for unsupported kinds, upon which `_check_alerts` returns immediately. -/
def default_thresholds (reading_type : String) : Option Thresholds :=
  if reading_type = "temperature" then some ⟨some 50, some 45, some (-10)⟩
  else if reading_type = "humidity" then some ⟨some 95, some 90, some 10⟩
  else if reading_type = "air_quality" then some ⟨some 300, some 150, some 0⟩
  else if reading_type = "noise" then some ⟨some 85, some 70, some 0⟩
  else if reading_type = "occupancy" then some ⟨some 120, some 100, some 0⟩
  else none

/-- C8 counterexample: with the configured temperature thresholds
`{min := -10, max := 45, critical := 50}`, a reading exactly equal to the critical
threshold (50) is classified `CRITICAL`, not the `WARNING` level that a strict
comparison would give: the critical guard in the code is `value >= critical`. -/
theorem check_alerts_critical_at_threshold_counterexample :
    (default_thresholds "temperature").map
        (fun t => (check_alerts_result t "Sensor 42" 50).map Prod.fst)
      = some (some "CRITICAL")
    ∧ (some "CRITICAL" : Option String) ≠ some "WARNING" := by
  constructor
  · rfl
  · decide

/-- C8 amended: for a configuration with `min ≤ max < critical`, a reading equal to
`max` triggers no alert and a reading equal to `min` triggers no alert (both outer
comparisons are strict), while the `CRITICAL` level is assigned if and only if the
value is ≥ the critical threshold (non-strict), so a value exactly equal to the
critical threshold is `CRITICAL` rather than a plain warning. -/
theorem check_alerts_result_boundaries (name : String) (c m mn v : ℚ)
    (hmc : m < c) (hmnm : mn ≤ m) :
    check_alerts_result ⟨some c, some m, some mn⟩ name m = none
    ∧ check_alerts_result ⟨some c, some m, some mn⟩ name mn = none
    ∧ ((check_alerts_result ⟨some c, some m, some mn⟩ name v).map Prod.fst
        = some "CRITICAL" ↔ c ≤ v) := by
  refine ⟨?_, ?_, ?_⟩
  · have h1 : critFires ⟨some c, some m, some mn⟩ m = false := by
      simp [critFires]; exact hmc
    have h2 : maxFires ⟨some c, some m, some mn⟩ m = false := by
      simp [maxFires]
    have h3 : minFires ⟨some c, some m, some mn⟩ m = false := by
      simp [minFires]; exact hmnm
    simp [check_alerts_result, h1, h2, h3]
  · have h1 : critFires ⟨some c, some m, some mn⟩ mn = false := by
      simp [critFires]; exact lt_of_le_of_lt hmnm hmc
    have h2 : maxFires ⟨some c, some m, some mn⟩ mn = false := by
      simp [maxFires]; exact hmnm
    have h3 : minFires ⟨some c, some m, some mn⟩ mn = false := by
      simp [minFires]
    simp [check_alerts_result, h1, h2, h3]
  · by_cases hcv : c ≤ v
    · have h1 : critFires ⟨some c, some m, some mn⟩ v = true := by
        simp [critFires]; exact hcv
      simp [check_alerts_result, h1, hcv]
    · have h1 : critFires ⟨some c, some m, some mn⟩ v = false := by
        simp [critFires]; exact lt_of_not_le hcv
      simp only [check_alerts_result, h1, Bool.false_eq_true, if_false]
      constructor
      · intro h
        by_cases hx : maxFires ⟨some c, some m, some mn⟩ v = true
        · simp [hx] at h
        · by_cases hy : minFires ⟨some c, some m, some mn⟩ v = true
          · simp [hx, hy] at h
          · simp [hx, hy] at h
      · intro h; exact absurd h hcv

/-- Concrete instantiation of `check_alerts_result_boundaries` at the configured
temperature thresholds: 45 °C (equal to max) and −10 °C (equal to min) raise no
alert, and 50 °C (equal to critical) is classified `CRITICAL`. -/
theorem check_alerts_result_boundaries_witness :
    check_alerts_result ⟨some 50, some 45, some (-10)⟩ "s" 45 = none
    ∧ check_alerts_result ⟨some 50, some 45, some (-10)⟩ "s" (-10) = none
    ∧ ((check_alerts_result ⟨some 50, some 45, some (-10)⟩ "s" 50).map Prod.fst
        = some "CRITICAL" ↔ (50:ℚ) ≤ 50) :=
  check_alerts_result_boundaries "s" 50 45 (-10) 50 (by norm_num) (by norm_num)

/-! ### Alert persistence (`SensorService._trigger_alert` and the `sensor_alerts`
table) -/

/-- Row of the `sensor_alerts` table as declared by `SensorAlert` in
`database/models.py`: its only uniqueness constraint is the serial integer primary
key `id`; there is no unique index on `(sensor_id, reading_type)` or on the
`resolved` flag. -/
structure SensorAlertRow where
  id : Nat
  sensor_id : String
  reading_type : String
  value : ℚ
  level : String
  message : String
  timestamp : Nat
  resolved : Bool
  deriving Repr, DecidableEq

/-- Next value of the serial `id` column of `sensor_alerts`. -/
def nextAlertId (table : List SensorAlertRow) : Nat :=
  (table.map (·.id)).foldr Nat.max 0 + 1

/-- The INSERT of `SensorService._trigger_alert` (`services/sensor_service.py`):
`INSERT INTO sensor_alerts (...) VALUES (...) ON CONFLICT DO NOTHING`. A bare
`ON CONFLICT DO NOTHING` clause skips the insert exactly when the new row violates
some unique constraint of the table; the only one is the primary key, so the skip
branch applies only on an `id` collision — which a serial id never produces. The new
row carries the column defaults `resolved = FALSE`, `resolved_at = NULL`. -/
def trigger_alert (table : List SensorAlertRow) (sensor_id reading_type : String)
    (value : ℚ) (level message : String) (now : Nat) : List SensorAlertRow :=
  let nuevo : SensorAlertRow :=
    { id := nextAlertId table, sensor_id := sensor_id, reading_type := reading_type,
      value := value, level := level, message := message, timestamp := now,
      resolved := false }
  if table.any fun r => r.id == nuevo.id then table
  else table ++ [nuevo]

/-- Number of unresolved (open) alert rows for a given (sensor, rule kind) pair. -/
def countActive (table : List SensorAlertRow) (sensor_id reading_type : String) :
    Nat :=
  (table.filter fun r =>
    r.sensor_id == sensor_id && r.reading_type == reading_type && !r.resolved).length

/-- An unresolved WARNING alert already stored for sensor `S1`, rule kind
`temperature`. -/
def alertaPreviaS1 : SensorAlertRow :=
  { id := 1, sensor_id := "S1", reading_type := "temperature", value := 46,
    level := "WARNING", message := "Valor alto en Sensor S1: 46 (máximo: 45)",
    timestamp := 100, resolved := false }

/-- C1 counterexample: with an active alert for `(S1, temperature)` already in the
table, re-triggering the same condition inserts a second row, leaving two active
alerts for the pair — the at-most-one-active invariant does not hold. -/
theorem trigger_alert_duplicate_counterexample :
    countActive
        (trigger_alert [alertaPreviaS1] "S1" "temperature" 47 "WARNING" "m2" 160)
        "S1" "temperature" = 2
    ∧ ¬ (countActive
        (trigger_alert [alertaPreviaS1] "S1" "temperature" 47 "WARNING" "m2" 160)
        "S1" "temperature" ≤ 1) := by
  decide

/-- Every id present in the table is strictly below the next serial id. -/
theorem id_lt_nextAlertId (table : List SensorAlertRow) (r : SensorAlertRow)
    (hr : r ∈ table) : r.id < nextAlertId table := by
  have hmem : r.id ∈ table.map (·.id) := List.mem_map_of_mem _ hr
  have hle : ∀ (l : List Nat), r.id ∈ l → r.id ≤ l.foldr Nat.max 0 := by
    intro l
    induction l with
    | nil => intro hx; cases hx
    | cons a t ih =>
      intro hx
      rcases List.mem_cons.mp hx with h | h
      · subst h; exact Nat.le_max_left _ _
      · exact le_trans (ih h) (Nat.le_max_right _ _)
  exact Nat.lt_succ_of_le (hle _ hmem)

/-- C1 amended: `_trigger_alert` never de-duplicates — the `ON CONFLICT DO NOTHING`
branch is unreachable because the fresh serial id cannot collide — so every trigger
appends a row, and when an active alert for the same (sensor_id, rule kind) pair
already exists the active count for that pair grows beyond one instead of staying
at one. -/
theorem trigger_alert_always_appends (table : List SensorAlertRow)
    (sensor_id reading_type : String) (value : ℚ) (level message : String)
    (now : Nat) :
    trigger_alert table sensor_id reading_type value level message now
      = table ++
        [{ id := nextAlertId table,
           sensor_id := sensor_id,
           reading_type := reading_type,
           value := value,
           level := level,
           message := message,
           timestamp := now,
           resolved := false }]
    ∧ countActive (trigger_alert table sensor_id reading_type value level message now)
          sensor_id reading_type
        = countActive table sensor_id reading_type + 1 := by
  have hfresh : (table.any fun r => r.id == nextAlertId table) = false := by
    rw [List.any_eq_false]
    intro r hr
    simpa using Nat.ne_of_lt (id_lt_nextAlertId table r hr)
  have happ :
      trigger_alert table sensor_id reading_type value level message now
        = table ++
          [{ id := nextAlertId table,
             sensor_id := sensor_id,
             reading_type := reading_type,
             value := value,
             level := level,
             message := message,
             timestamp := now,
             resolved := false }] := by
    unfold trigger_alert
    simp only [hfresh, Bool.false_eq_true, if_false]
  refine ⟨happ, ?_⟩
  rw [happ]
  unfold countActive
  rw [List.filter_append, List.length_append]
  simp

/-! ### Observation ingest (`SensorService.record_reading` and
`TimescaleService.insertar_observacion`) -/

/-- Row of the `sensor_readings` hypertable (`SensorReading` in
`database/models.py`). -/
structure SensorReadingRow where
  sensor_id : String
  reading_type : String
  value : ℚ
  timestamp : Nat
  deriving Repr, DecidableEq

/-- State touched by `SensorService.record_reading`: the in-memory `self.sensors`
registry (sensor id ↦ display name), the `sensor_readings` hypertable, and the
`sensor_alerts` table written by `_trigger_alert`. -/
structure SensorServiceState where
  sensors : List (String × String)
  readings : List SensorReadingRow
  alerts : List SensorAlertRow
  deriving Repr, DecidableEq

/-- `SensorService.record_reading` (`services/sensor_service.py`) together with the
`_check_alerts`/`_trigger_alert` calls it makes on success: an unregistered sensor id
is rejected with `False` before anything is written; otherwise the reading is
appended (`timescale_client.insert_sensor_reading`) and, when a threshold guard
fires, an alert row is inserted. `ts` is the reading timestamp, `now` the wall clock
used for the alert row. -/
def record_reading (st : SensorServiceState) (sensor_id reading_type : String)
    (value : ℚ) (ts now : Nat) : Bool × SensorServiceState :=
  match st.sensors.lookup sensor_id with
  | none => (false, st)
  | some name =>
    let st1 := { st with
                 readings := st.readings ++
                   [{ sensor_id := sensor_id, reading_type := reading_type,
                      value := value, timestamp := ts }] }
    match default_thresholds reading_type with
    | none => (true, st1)
    | some t =>
      match check_alerts_result t name value with
      | none => (true, st1)
      | some (level, msg) =>
        (true, { st1 with
                 alerts := trigger_alert st1.alerts sensor_id reading_type value
                   level msg now })

/-- Observation row of the `observaciones` hypertable (`Observacion` in
`database/models_TimescaleDB.py`), restricted to the columns
`insertar_observacion` fills with non-NULL values. -/
structure Observacion where
  sensor_id : Nat
  valor : ℚ
  unidad : String
  fecha_observacion : Nat
  calidad_dato : String
  deriving Repr, DecidableEq

/-- Database state seen by `TimescaleService.insertar_observacion`: the set of
registered sensor ids (`sensores` table) and the observation table, whose
`sensor_id` column carries `FOREIGN KEY REFERENCES sensores(id)`. -/
structure ObsDB where
  sensores : List Nat
  observaciones : List Observacion
  deriving Repr, DecidableEq

/-- Errors the database driver raises against the INSERT of `insertar_observacion`. -/
inductive DBError where
  | foreignKeyViolation
  deriving Repr, DecidableEq

/-- `TimescaleService.insertar_observacion` (`services/timescale_service.py`):
executes `INSERT INTO observaciones (...)` with no prior validation; the engine
enforces the foreign key on `sensor_id`, and on a violation the driver error is
logged and re-raised to the caller, leaving the table unchanged. -/
def insertar_observacion (db : ObsDB) (sensor_id : Nat) (valor : ℚ) (unidad : String)
    (fecha_observacion : Nat) (calidad_dato : String) : Except DBError ObsDB :=
  if db.sensores.contains sensor_id then
    .ok { db with
          observaciones := db.observaciones ++
            [{ sensor_id := sensor_id, valor := valor, unidad := unidad,
               fecha_observacion := fecha_observacion,
               calidad_dato := calidad_dato }] }
  else .error .foreignKeyViolation

/-- C5: on both ingest paths an observation for an unregistered sensor is rejected
and nothing is written: `record_reading` returns `False` with the state untouched,
and `insertar_observacion` surfaces the foreign-key error (the unknown-sensor
rejection) without extending the observation table. -/
theorem unknown_sensor_rejected (st : SensorServiceState)
    (sensor_id reading_type : String) (value : ℚ) (ts now : Nat)
    (db : ObsDB) (sid : Nat) (valor : ℚ) (unidad : String) (fecha : Nat)
    (calidad : String)
    (h1 : st.sensors.lookup sensor_id = none)
    (h2 : db.sensores.contains sid = false) :
    record_reading st sensor_id reading_type value ts now = (false, st)
    ∧ insertar_observacion db sid valor unidad fecha calidad
        = .error .foreignKeyViolation := by
  constructor
  · unfold record_reading
    rw [h1]
  · unfold insertar_observacion
    rw [h2]
    simp

/-- Concrete instantiation of `unknown_sensor_rejected`: sensor `S9` is absent from
the registry and id 9 absent from `sensores`; both paths reject without writing. -/
theorem unknown_sensor_rejected_witness :
    record_reading
        { sensors := [("S1", "Sensor 1")], readings := [], alerts := [] }
        "S9" "temperature" 21 5 5
      = (false, { sensors := [("S1", "Sensor 1")], readings := [], alerts := [] })
    ∧ insertar_observacion { sensores := [1, 2], observaciones := [] } 9 21 "°C" 5
        "buena"
      = .error .foreignKeyViolation :=
  unknown_sensor_rejected
    { sensors := [("S1", "Sensor 1")], readings := [], alerts := [] }
    "S9" "temperature" 21 5 5
    { sensores := [1, 2], observaciones := [] } 9 21 "°C" 5 "buena"
    (by decide) (by decide)

/-! ### Nearby shelters (`TimescaleService.get_refugios_cercanos`) -/

/-- SQL `ROUND(x, 2)`: round to two decimal places. -/
def round2 (q : ℚ) : ℚ := (round (q * 100) : ℤ) / 100

/-- Output row of `get_refugios_cercanos`: the shelter columns together with the
`distancia_km` column, `ROUND(ST_Distance(...)/1000, 2)`. -/
structure RefugioCercano where
  refugio : Refugio
  distancia_km : ℚ
  deriving Repr, DecidableEq

/-- The `ORDER BY distancia_km` comparison between two result rows. -/
def distanciaLe (a b : RefugioCercano) : Prop :=
  a.distancia_km ≤ b.distancia_km

instance : DecidableRel distanciaLe := fun a b =>
  inferInstanceAs (Decidable (a.distancia_km ≤ b.distancia_km))

instance : IsTotal RefugioCercano distanciaLe :=
  ⟨fun a b => le_total a.distancia_km b.distancia_km⟩

instance : IsTrans RefugioCercano distanciaLe :=
  ⟨fun _ _ _ h1 h2 => le_trans h1 h2⟩

/-- `TimescaleService.get_refugios_cercanos` (`services/timescale_service.py`): the
SQL query `SELECT ..., ROUND(ST_Distance(geom, centro)/1000, 2) AS distancia_km FROM
refugios WHERE ST_DWithin(geom, centro, radio_km * 1000) [AND capacidad_actual <
capacidad_maxima] ORDER BY distancia_km`. The geodesic distance in meters from the
query center to each shelter is the oracle `dist_m` (both `ST_DWithin` and
`ST_Distance` consume the same geography measure); the capacity conjunct is appended
exactly when `incluir_llenos` is false; sorting is by the rounded km distance. -/
def get_refugios_cercanos (dist_m : Refugio → ℚ) (refugios : List Refugio)
    (radio_km : ℚ) (incluir_llenos : Bool) : List RefugioCercano :=
  let filtrados := refugios.filter fun r =>
    decide (dist_m r ≤ radio_km * 1000)
      && (incluir_llenos || decide (r.capacidad_actual < r.capacidad_maxima))
  let filas := filtrados.map fun r =>
    { refugio := r, distancia_km := round2 (dist_m r / 1000) }
  filas.insertionSort distanciaLe

/-- C6: every row returned by `get_refugios_cercanos` lies within the requested
radius, carries the rounded distance of its shelter from the center, and — when
`incluir_llenos` is false — has spare capacity; and the result is sorted ascending
by its distance column. -/
theorem get_refugios_cercanos_spec (dist_m : Refugio → ℚ) (refugios : List Refugio)
    (radio_km : ℚ) (incluir_llenos : Bool) :
    (∀ fila ∈ get_refugios_cercanos dist_m refugios radio_km incluir_llenos,
        dist_m fila.refugio ≤ radio_km * 1000
        ∧ fila.distancia_km = round2 (dist_m fila.refugio / 1000)
        ∧ (incluir_llenos = false →
            fila.refugio.capacidad_actual < fila.refugio.capacidad_maxima))
    ∧ List.Sorted distanciaLe
        (get_refugios_cercanos dist_m refugios radio_km incluir_llenos) := by
  constructor
  · intro fila hmem
    unfold get_refugios_cercanos at hmem
    rw [List.mem_insertionSort] at hmem
    obtain ⟨r0, hr0, rfl⟩ := List.mem_map.mp hmem
    have hf := (List.mem_filter.mp hr0).2
    simp only [Bool.and_eq_true, Bool.or_eq_true, decide_eq_true_eq] at hf
    refine ⟨hf.1, rfl, ?_⟩
    intro hinc
    rcases hf.2 with h | h
    · rw [hinc] at h; cases h
    · exact h
  · unfold get_refugios_cercanos
    exact List.sorted_insertionSort distanciaLe _

/-- Shelter fixture for the radius-query claim: capacity 10 of 50. -/
def refugioW1 : Refugio :=
  { id := 1, nombre := "Refugio Norte", tipo_refugio := "temporal",
    estado_operativo := "disponible", capacidad_maxima := 50,
    capacidad_actual := 10, tiene_aire_acondicionado := false,
    tiene_calefaccion := true, tiene_servicio_medico := false,
    lon := -3, lat := 40 }

/-- Distance oracle fixture: every shelter sits 2000 m from the query center. -/
def distW : Refugio → ℚ := fun _ => 2000

/-- Concrete instantiation of `get_refugios_cercanos_spec`: the single returned row
of a 10 km query is within the radius, carries the rounded distance and has spare
capacity. -/
theorem get_refugios_cercanos_spec_witness :
    distW refugioW1 ≤ (10:ℚ) * 1000
    ∧ (⟨refugioW1, round2 (distW refugioW1 / 1000)⟩ : RefugioCercano).distancia_km
        = round2 (distW refugioW1 / 1000)
    ∧ refugioW1.capacidad_actual < refugioW1.capacidad_maxima := by
  have hmem : (⟨refugioW1, round2 (distW refugioW1 / 1000)⟩ : RefugioCercano)
      ∈ get_refugios_cercanos distW [refugioW1] 10 false := by
    unfold get_refugios_cercanos
    rw [List.mem_insertionSort]
    simp [distW, refugioW1]
    norm_num
  have h := (get_refugios_cercanos_spec distW [refugioW1] 10 false).1
    ⟨refugioW1, round2 (distW refugioW1 / 1000)⟩ hmem
  exact ⟨h.1, h.2.1, h.2.2 rfl⟩

/-! ### Evacuation route endpoint (`calcular_ruta_refugio` in
`api/routers/sensores.py`) -/

/-- A row returned by the `calcular_ruta_refugio` routing function: step sequence
number, edge id, cost in minutes, and the segment geometry (a GeoJSON geometry,
carried opaquely as its parsed JSON text). -/
structure SegmentoRuta where
  step_seq : Nat
  edge_id : Int
  cost : ℚ
  geojson : String
  deriving Repr, DecidableEq

/-- The `properties` object of one output feature. -/
structure FeatureProperties where
  step_seq : Nat
  edge_id : Int
  cost : ℚ
  deriving Repr, DecidableEq

/-- One GeoJSON feature of the response (`typ` embeds the JSON `type` field). -/
structure Feature where
  typ : String
  geometry : String
  properties : FeatureProperties
  deriving Repr, DecidableEq

/-- The `ruta_geojson` object of the response. -/
structure FeatureCollection where
  typ : String
  features : List Feature
  deriving Repr, DecidableEq

/-- The JSON body returned by the endpoint. -/
structure RutaRespuesta where
  sensor_id : Int
  refugio_id : Int
  distancia_total_minutos : ℚ
  tiempo_estimado_minutos : ℚ
  num_segmentos : Nat
  ruta_geojson : FeatureCollection
  deriving Repr, DecidableEq

/-- The endpoint `calcular_ruta_refugio` of `api/routers/sensores.py`, applied to
the segment rows the routing function returned: an empty route yields HTTP 404
(`none`); otherwise `distancia_total = sum(segmento.cost)`,
`tiempo_estimado = distancia_total`, both reported through `round(_, 2)`, and the
response carries a FeatureCollection with one feature per segment whose properties
repeat the raw `step_seq`, `edge_id` and `cost` of the segment. -/
def calcular_ruta_refugio (sensor_id refugio_id : Int) (ruta : List SegmentoRuta) :
    Option RutaRespuesta :=
  if ruta.isEmpty then none
  else
    let distancia_total := (ruta.map (·.cost)).sum
    let tiempo_estimado := distancia_total
    let features := ruta.map fun s =>
      { typ := "Feature", geometry := s.geojson,
        properties := { step_seq := s.step_seq, edge_id := s.edge_id,
                        cost := s.cost } }
    some { sensor_id := sensor_id, refugio_id := refugio_id,
           distancia_total_minutos := round2 distancia_total,
           tiempo_estimado_minutos := round2 tiempo_estimado,
           num_segmentos := ruta.length,
           ruta_geojson := { typ := "FeatureCollection", features := features } }

/-- Route fixture: a single segment whose cost, 1.234 minutes, does not have an
exact two-decimal representation. -/
def segC7 : SegmentoRuta :=
  { step_seq := 1, edge_id := 7, cost := 1234/1000, geojson := "g1" }

/-- C7 counterexample: for the one-segment route of cost 1.234 minutes, the reported
total is `round(1.234, 2) = 1.23`, while the sum of the costs of the returned
segments (in the properties of the features) is 1.234 — the reported total does NOT equal
the sum of the returned segment costs. -/
theorem calcular_ruta_rounding_counterexample :
    (calcular_ruta_refugio 7 3 [segC7]).map (·.distancia_total_minutos)
      = some (123/100)
    ∧ (calcular_ruta_refugio 7 3 [segC7]).map
        (fun resp => (resp.ruta_geojson.features.map (·.properties.cost)).sum)
      = some (1234/1000)
    ∧ (123/100 : ℚ) ≠ 1234/1000 := by
  refine ⟨?_, ?_, by norm_num⟩
  · simp [calcular_ruta_refugio, segC7]
    norm_num [round2, round_eq]
  · simp [calcular_ruta_refugio, segC7]

/-- C7 amended: for every non-empty route, the reported total cost is the sum of the
segment costs rounded to two decimals, the reported estimated time equals that
reported total (identity), and the response geometry is a `FeatureCollection` with
exactly one feature per segment, whose properties carry the raw segment costs. -/
theorem calcular_ruta_spec (sensor_id refugio_id : Int) (ruta : List SegmentoRuta)
    (h : ruta ≠ []) :
    (calcular_ruta_refugio sensor_id refugio_id ruta).isSome = true
    ∧ ∀ resp, calcular_ruta_refugio sensor_id refugio_id ruta = some resp →
        resp.distancia_total_minutos = round2 ((ruta.map (·.cost)).sum)
        ∧ resp.tiempo_estimado_minutos = resp.distancia_total_minutos
        ∧ resp.ruta_geojson.typ = "FeatureCollection"
        ∧ resp.ruta_geojson.features.length = ruta.length
        ∧ resp.ruta_geojson.features.map (·.properties.cost) = ruta.map (·.cost) := by
  have hne : ruta.isEmpty = false := by
    cases ruta with
    | nil => exact absurd rfl h
    | cons a t => rfl
  constructor
  · unfold calcular_ruta_refugio
    rw [hne]
    rfl
  · intro resp hresp
    unfold calcular_ruta_refugio at hresp
    rw [hne] at hresp
    simp only [Bool.false_eq_true, if_false, Option.some.injEq] at hresp
    subst hresp
    refine ⟨rfl, rfl, rfl, by simp, by simp⟩

/-- Concrete instantiation of `calcular_ruta_spec` on a two-segment route. -/
theorem calcular_ruta_spec_witness :
    (calcular_ruta_refugio 1 2
        [{ step_seq := 1, edge_id := 10, cost := 3, geojson := "ga" },
         { step_seq := 2, edge_id := 11, cost := 4, geojson := "gb" }]).isSome
      = true :=
  (calcular_ruta_spec 1 2
    [{ step_seq := 1, edge_id := 10, cost := 3, geojson := "ga" },
     { step_seq := 2, edge_id := 11, cost := 4, geojson := "gb" }]
    (by simp)).1

/-! ### SMS delivery (`TwilioService.send_sms` in `services/twilio_service.py`) -/

/-- Outcome of one call to the external gateway (`self.client.messages.create`). -/
inductive GatewayResult where
  /-- The message was created; the provider returned this SID. -/
  | ok (sid : String)
  /-- The call raised `TwilioException` (gateway-reported error, transient or
  permanent alike). -/
  | twilioError
  /-- The call raised any other exception. -/
  | otherError
  deriving Repr, DecidableEq

/-- Environment of `TwilioService.send_sms`: `enabled` is `self.enabled` (false when
any of the three Twilio credentials is missing), `nowStr` the
`datetime.now().strftime` text (format %Y%m%d%H%M%S) used for the simulated SID, and
`gateway n` the outcome the gateway would give to the n-th `messages.create` call of
this invocation. -/
structure SmsEnv where
  enabled : Bool
  nowStr : String
  gateway : Nat → GatewayResult

/-- `TwilioService.send_sms`, instrumented with the number of gateway calls
performed (second component). When disabled it returns the simulated SID without
touching the gateway; when enabled it normalizes the number, truncates the body (a
body-only transformation not affecting the modelled observables) and performs a
single `messages.create` call, returning its SID on success and `None` when the call
raises — `TwilioException` and any other exception are both caught and answered with
`None`, with no retry of any kind. -/
def send_sms (env : SmsEnv) (to_number message : String) : Option String × Nat :=
  if env.enabled = false then
    (some ("sim_" ++ env.nowStr), 0)
  else
    match env.gateway 1 with
    | .ok sid => (some sid, 1)
    | .twilioError => (none, 1)
    | .otherError => (none, 1)

/-- A gateway whose first create call fails with a (transient) `TwilioException`
and whose second call would succeed. -/
def transientGateway : Nat → GatewayResult
  | 1 => .twilioError
  | _ => .ok "SM_RETRY_OK"

/-- Environment fixture: configured service facing `transientGateway`. -/
def envTransient : SmsEnv :=
  { enabled := true, nowStr := "20250101120000", gateway := transientGateway }

/-- C9 counterexample: against a gateway whose transient error would clear on the
second attempt, `send_sms` performs exactly one gateway call and reports failure —
no retry, no backoff, no distinction between transient and permanent errors. -/
theorem send_sms_no_retry_counterexample :
    send_sms envTransient "+34600000000" "alerta" = (none, 1)
    ∧ transientGateway 2 = .ok "SM_RETRY_OK" := by
  constructor
  · rfl
  · rfl

/-- C9 amended: whenever the service is enabled, `send_sms` makes exactly one
gateway call, returns its SID on success and `None` on any raised error; transient
and permanent gateway errors are handled identically and nothing is retried. -/
theorem send_sms_single_attempt (env : SmsEnv) (to_number message : String)
    (h : env.enabled = true) :
    (send_sms env to_number message).2 = 1
    ∧ (send_sms env to_number message).1
        = (match env.gateway 1 with
           | .ok sid => some sid
           | .twilioError => none
           | .otherError => none) := by
  unfold send_sms
  rw [h]
  simp only [Bool.true_eq_false, if_false]
  cases env.gateway 1 with
  | ok sid => exact ⟨rfl, rfl⟩
  | twilioError => exact ⟨rfl, rfl⟩
  | otherError => exact ⟨rfl, rfl⟩

/-- Concrete instantiation of `send_sms_single_attempt` at `envTransient`. -/
theorem send_sms_single_attempt_witness :
    (send_sms envTransient "+34600000000" "alerta").2 = 1
    ∧ (send_sms envTransient "+34600000000" "alerta").1
        = (match envTransient.gateway 1 with
           | .ok sid => some sid
           | .twilioError => none
           | .otherError => none) :=
  send_sms_single_attempt envTransient "+34600000000" "alerta" rfl

/-- C10: with the gateway credentials unconfigured (`enabled = false`), `send_sms`
succeeds for every recipient and message, returning the synthetic provider id
`"sim_" ++ timestamp` and performing zero gateway calls. -/
theorem send_sms_disabled_simulates (env : SmsEnv) (to_number message : String)
    (h : env.enabled = false) :
    send_sms env to_number message = (some ("sim_" ++ env.nowStr), 0)
    ∧ (send_sms env to_number message).1 ≠ none := by
  have heq : send_sms env to_number message = (some ("sim_" ++ env.nowStr), 0) := by
    unfold send_sms
    rw [h]
    rfl
  refine ⟨heq, ?_⟩
  rw [heq]
  simp

/-- Concrete instantiation of `send_sms_disabled_simulates` on an unconfigured
environment. -/
theorem send_sms_disabled_simulates_witness :
    send_sms { enabled := false, nowStr := "20250101120000",
               gateway := transientGateway } "+34600000000" "alerta"
      = (some ("sim_" ++ "20250101120000"), 0)
    ∧ (send_sms { enabled := false, nowStr := "20250101120000",
                  gateway := transientGateway } "+34600000000" "alerta").1 ≠ none :=
  send_sms_disabled_simulates
    { enabled := false, nowStr := "20250101120000", gateway := transientGateway }
    "+34600000000" "alerta" rfl

end McpRagGis
